import Mathlib

/-!
Shallow embedding of the Production & Stock Conversion Engine of the
omeganutricion repository (src/services/products/crud.py and
src/services/stocks/crud.py), together with theorems settling the spec
claims about it.

Modelling conventions:
* SQLAlchemy tables become lists of record structures; `query(...).filter(...)`
  with `.first()` becomes `List.find?` (first match in table order) and with
  `.all()` becomes `List.filter`; in-place mutation of a loaded row becomes
  replacement of the first matching element.
* `Float` columns are modelled as rationals, `Integer` columns as `Int`/`Nat`.
* A Python function that can raise returns an `Outcome`; the carried `DB` is
  the visible state at the moment of return or raise.
* Database-generated columns that no claim touches (autoincrement primary
  keys, server-default timestamps) are elided from the record structures.
-/

/-- Row of the `formula` table (products/models.py, class FormulaDB). -/
structure FormulaRec where
  id : Nat
  product_id : Nat
  material_id : Nat
  quantity : ℚ
  deriving Repr, DecidableEq

/-- Row of the `material_stock` table (stocks/models.py, MaterialStockDB). -/
structure MaterialStockRec where
  id : Nat
  material_id : Nat
  actual_balance : ℚ
  deriving Repr, DecidableEq

/-- Row of the `batch_stock` table (stocks/models.py, BatchStockDB). -/
structure BatchStockRec where
  product_id : Nat
  actual_balance : ℚ
  deriving Repr, DecidableEq

/-- Row of the `product_stock` table (stocks/models.py, ProductStockDB);
`actual_balance` is an `Integer` column. -/
structure ProductStockRec where
  product_id : Nat
  actual_balance : Int
  deriving Repr, DecidableEq

/-- Row of the `product` table (products/models.py, ProductDB). -/
structure ProductRec where
  id : Nat
  product_name : String
  size : ℚ
  deriving Repr, DecidableEq

/-- Row of the `batch` audit table (products/models.py, BatchDB); the fields
carried by `schemas.BatchCreate` that the engine uses. -/
structure BatchRec where
  product_id : Nat
  quantity : ℚ
  deriving Repr, DecidableEq

/-- Row of the `product_batch` audit table (products/models.py,
ProductBatchDB). -/
structure ProductBatchRec where
  product_id : Nat
  product_batch_id : String
  pieces : Int
  deriving Repr, DecidableEq

/-- Row of the `package_compose` table (products/models.py, PackageComposeDB):
a presence-only (product, package material) relation. -/
structure PackageComposeRec where
  product_id : Nat
  package_material_id : Nat
  deriving Repr, DecidableEq

/-- Modelled from the spec: the packaging-material stock ledger. The stocks
service docstring names a `PackagingStock` balance but its table model is
absent from the sources; per the spec it is a key-to-balance mapping like the
other three ledgers. -/
structure PackagingStockRec where
  package_material_id : Nat
  actual_balance : ℚ
  deriving Repr, DecidableEq

/-- The storage backend visible to the engine: one list per table. -/
structure DB where
  formulas : List FormulaRec
  materialStock : List MaterialStockRec
  batchStock : List BatchStockRec
  productStock : List ProductStockRec
  products : List ProductRec
  batches : List BatchRec
  productBatches : List ProductBatchRec
  packageCompose : List PackageComposeRec
  packagingStock : List PackagingStockRec
  deriving Repr, DecidableEq

/-- Python exceptions that the embedded code can raise. -/
inductive PyErr where
  | typeError (msg : String)
  | attributeError (msg : String)
  | otherError (msg : String)
  deriving Repr, DecidableEq

/-- Result of running a Python method body: a value returned normally, or an
exception propagating out. -/
inductive Outcome (α : Type) where
  | raised : PyErr → Outcome α
  | returned : α → Outcome α
  deriving Repr, DecidableEq

/-- `db.query(MaterialStockDB).filter(material_id == mid).first()`. -/
def DB.findMaterialStock (db : DB) (mid : Nat) : Option MaterialStockRec :=
  db.materialStock.find? (fun r => r.material_id == mid)

/-- `db.query(BatchStockDB).filter(product_id == pid).first()`. -/
def DB.findBatchStock (db : DB) (pid : Nat) : Option BatchStockRec :=
  db.batchStock.find? (fun r => r.product_id == pid)

/-- `db.query(ProductStockDB).filter(product_id == pid).first()`. -/
def DB.findProductStock (db : DB) (pid : Nat) : Option ProductStockRec :=
  db.productStock.find? (fun r => r.product_id == pid)

/-- `db.query(ProductDB).filter(id == pid).first()`. -/
def DB.findProduct (db : DB) (pid : Nat) : Option ProductRec :=
  db.products.find? (fun r => r.id == pid)

/-- Material Ledger balance read, with an absent record counting as 0. -/
def DB.matBalance (db : DB) (mid : Nat) : ℚ :=
  ((db.findMaterialStock mid).map (fun r => r.actual_balance)).getD 0

/-- Batch Ledger balance read, with an absent record counting as 0. -/
def DB.batchBalance (db : DB) (pid : Nat) : ℚ :=
  ((db.findBatchStock pid).map (fun r => r.actual_balance)).getD 0

/-- Product Ledger balance read, with an absent record counting as 0. -/
def DB.productBalance (db : DB) (pid : Nat) : Int :=
  ((db.findProductStock pid).map (fun r => r.actual_balance)).getD 0

/-- Packaging Ledger balance read, with an absent record counting as 0. -/
def DB.packBalance (db : DB) (pmid : Nat) : ℚ :=
  ((db.packagingStock.find? (fun r => r.package_material_id == pmid)).map
    (fun r => r.actual_balance)).getD 0

/-- In-place `actual_balance` assignment on the first `material_stock` row
matching `material_id == mid` (SQLAlchemy row mutation of a `.first()`
result). -/
def setFirstMaterialBalance : List MaterialStockRec → Nat → ℚ → List MaterialStockRec
  | [], _, _ => []
  | r :: rest, mid, b =>
    if r.material_id == mid then { r with actual_balance := b } :: rest
    else r :: setFirstMaterialBalance rest mid b

/-- In-place `actual_balance` assignment on the first `batch_stock` row
matching `product_id == pid`. -/
def setFirstBatchBalance : List BatchStockRec → Nat → ℚ → List BatchStockRec
  | [], _, _ => []
  | r :: rest, pid, b =>
    if r.product_id == pid then { r with actual_balance := b } :: rest
    else r :: setFirstBatchBalance rest pid b

/-- In-place `actual_balance` assignment on the first `product_stock` row
matching `product_id == pid`. -/
def setFirstProductBalance : List ProductStockRec → Nat → Int → List ProductStockRec
  | [], _, _ => []
  | r :: rest, pid, b =>
    if r.product_id == pid then { r with actual_balance := b } :: rest
    else r :: setFirstProductBalance rest pid b

/-- Subtract `amt` from the first packaging-stock row for `pmid`. -/
def subFirstPackagingBalance : List PackagingStockRec → Nat → ℚ → List PackagingStockRec
  | [], _, _ => []
  | r :: rest, pmid, amt =>
    if r.package_material_id == pmid then
      { r with actual_balance := r.actual_balance - amt } :: rest
    else r :: subFirstPackagingBalance rest pmid amt

/-- `FormulaCrud.get_formula` (products/crud.py, lines 267-269): all formula
rows of the given product, in table order. -/
def FormulaCrud.get_formula (db : DB) (product_id : Nat) : List FormulaRec :=
  db.formulas.filter (fun r => r.product_id == product_id)

/-- `FormulaCrud.get_formula_weight` (products/crud.py, lines 305-314):
`None` when the product has no formula rows, otherwise the sum of the rows'
`quantity` fields. -/
def FormulaCrud.get_formula_weight (db : DB) (product_id : Nat) : Option ℚ :=
  let formula := FormulaCrud.get_formula db product_id
  if formula.isEmpty then none
  else some (formula.foldl (fun acc item => acc + item.quantity) 0)

/-- One element of the `material_list` that `check_material_stock` returns:
a dict with keys `material_id` and `quantity` (the requirement for the whole
batch). -/
structure Requirement where
  material_id : Nat
  quantity : ℚ
  deriving Repr, DecidableEq

/-- `BatchCrud.check_material_stock` (products/crud.py, lines 409-434).
When the product has formula rows it returns each row's material with its
quantity scaled by the batch quantity.  When it has none, the source executes
`return HTTPException(status_code=404, detail=...)`; at that point the name
`HTTPException` is `http.client.HTTPException` (the `from http.client import
HTTPException` at line 6 shadows the FastAPI import at line 3), and
constructing a plain `Exception` subclass with keyword arguments raises
`TypeError` — the 404 object is never built.  (Were the object built and
returned, the caller would still raise `TypeError` iterating it.) -/
def BatchCrud.check_material_stock (db : DB) (product_id : Nat) (qty : ℚ) :
    Outcome (List Requirement) :=
  let db_get_formula := db.formulas.filter (fun r => r.product_id == product_id)
  if db_get_formula.isEmpty then
    .raised (.typeError "HTTPException() takes no keyword arguments")
  else
    .returned (db_get_formula.map (fun item =>
      { material_id := item.material_id, quantity := item.quantity * qty }))

/-- The `final_response` dict of `check_formula_stock`: keys `message`,
`material_id`, `outcome`. -/
structure CheckResult where
  message : String
  material_id : Nat
  outcome : Bool
  deriving Repr, DecidableEq

/-- `BatchCrud.check_formula_stock` (products/crud.py, lines 436-465).
Walks `material_list` in order; for each item it loads the material-stock row
and immediately evaluates `record_stock.material_id` (the argument of the
first `debug_data` call), so an absent row — `get_material` returning `None`
— raises `AttributeError` before any comparison.  On the first item whose
balance is below the requirement it returns the insufficient-stock response
naming that material; if the walk finishes it returns the enough-stock
response. -/
def BatchCrud.check_formula_stock (db : DB) : List Requirement → Outcome CheckResult
  | [] => .returned { message := "enough stock", material_id := 0, outcome := true }
  | item :: rest =>
    match db.findMaterialStock item.material_id with
    | none => .raised (.attributeError "NoneType object has no attribute material_id")
    | some record_stock =>
      if record_stock.actual_balance < item.quantity then
        .returned { message := "insufficient stock", material_id := item.material_id,
                    outcome := false }
      else
        BatchCrud.check_formula_stock db rest

/-- `BatchCrud.subtract_material` (products/crud.py, lines 467-493): for each
item, load the first matching material-stock row and assign
`actual_balance -= quantity`; collect the new balances.  An absent row makes
`material_to_update.actual_balance` raise `AttributeError`, with the earlier
items' subtractions already applied to the session. -/
def BatchCrud.subtract_material (db : DB) : List Requirement → DB × Outcome (List (Nat × ℚ))
  | [] => (db, .returned [])
  | item :: rest =>
    match db.findMaterialStock item.material_id with
    | none => (db, .raised (.attributeError "NoneType object has no attribute actual_balance"))
    | some material_to_update =>
      let newBal := material_to_update.actual_balance - item.quantity
      let db1 : DB := { db with materialStock := setFirstMaterialBalance db.materialStock item.material_id newBal }
      match BatchCrud.subtract_material db1 rest with
      | (db2, .raised e) => (db2, .raised e)
      | (db2, .returned tl) => (db2, .returned ((item.material_id, newBal) :: tl))

/-- `BatchCrud.update_stock_batch` (products/crud.py, lines 385-407): add
`quantity` to the existing batch-stock row, or create the row with balance
`quantity` when absent. -/
def BatchCrud.update_stock_batch (db : DB) (product_id : Nat) (quantity : ℚ) : DB :=
  match db.findBatchStock product_id with
  | some db_batch =>
    { db with batchStock :=
        setFirstBatchBalance db.batchStock product_id (db_batch.actual_balance + quantity) }
  | none =>
    { db with batchStock :=
        db.batchStock ++ [{ product_id := product_id, actual_balance := quantity }] }

/-- `BatchCrud.create_batch` (products/crud.py, lines 328-361): build the
requirement list, check stock, and on success add the audit row, subtract the
materials, and credit the batch ledger; on an insufficient-stock check return
`(None, message)` with nothing mutated. -/
def BatchCrud.create_batch (db : DB) (product_id : Nat) (quantity : ℚ) :
    DB × Outcome (Option BatchRec × Option String) :=
  let db_batch : BatchRec := { product_id := product_id, quantity := quantity }
  match BatchCrud.check_material_stock db product_id quantity with
  | .raised e => (db, .raised e)
  | .returned formula_list =>
    match BatchCrud.check_formula_stock db formula_list with
    | .raised e => (db, .raised e)
    | .returned check_materials =>
      if !check_materials.outcome then
        (db, .returned (none,
          some (check_materials.message ++ " for product "
            ++ toString check_materials.material_id)))
      else
        let db1 : DB := { db with batches := db.batches ++ [db_batch] }
        match BatchCrud.subtract_material db1 formula_list with
        | (db2, .raised e) => (db2, .raised e)
        | (db2, .returned _) =>
          let db3 := BatchCrud.update_stock_batch db2 product_id quantity
          (db3, .returned (some db_batch, none))

/-- Result of `ProductBatchCrud.verify_enough_batch`: the source returns
either `(False, message)` or `({"batch_qty": q}, None)`. -/
inductive VerifyResult where
  | failed (message : String)
  | ok (batch_qty : ℚ)
  deriving Repr, DecidableEq

/-- `ProductBatchCrud.verify_enough_batch` (products/crud.py, lines 602-632).
Checks, in source order: the batch-stock row exists, the product row exists,
the formula weight is truthy (`if not formula_weight` is taken both when
`get_formula_weight` returns `None` and when it returns `0.0`), and the batch
balance covers `batch_qty = (size * pieces) / formula_weight`.  The division
is only evaluated after the truthiness guard, so the divisor is never zero. -/
def ProductBatchCrud.verify_enough_batch (db : DB) (product_id : Nat) (pieces : Int) :
    VerifyResult :=
  match db.findBatchStock product_id with
  | none => .failed ("the product " ++ toString product_id ++ " is not in batch stock")
  | some db_batch =>
    let actual_balance := db_batch.actual_balance
    match db.findProduct product_id with
    | none => .failed ("the product " ++ toString product_id ++ " is not a valid product")
    | some db_product =>
      let formula_weight := (FormulaCrud.get_formula_weight db product_id).getD 0
      if formula_weight == 0 then
        .failed ("the product " ++ toString product_id ++ " is not in formulas")
      else
        let size := db_product.size
        let batch_qty := (size * (pieces : ℚ)) / formula_weight
        if actual_balance < batch_qty then
          .failed ("there is not enough batch in stock for product " ++ toString product_id)
        else
          .ok batch_qty

/-- `ProductBatchCrud.subtract_material_batch` (products/crud.py, lines
634-644): subtract `qty` from the batch-stock row, returning `(row, None)`,
or `(None, message)` when the row is absent.  Either way the result is a
2-tuple. -/
def ProductBatchCrud.subtract_material_batch (db : DB) (product_id : Nat) (qty : ℚ) :
    DB × (Option BatchStockRec × Option String) :=
  match db.findBatchStock product_id with
  | none =>
    (db, (none, some ("the product " ++ toString product_id ++ " is not in batch stock")))
  | some db_material_batch =>
    let newBal := db_material_batch.actual_balance - qty
    ({ db with batchStock := setFirstBatchBalance db.batchStock product_id newBal },
     (some { db_material_batch with actual_balance := newBal }, none))

/-- `ProductBatchCrud.update_product_stock` (products/crud.py, lines 646-666):
add `pieces` to the existing product-stock row, or create the row with
balance `pieces` when absent. -/
def ProductBatchCrud.update_product_stock (db : DB) (product_id : Nat) (pieces : Int) : DB :=
  match db.findProductStock product_id with
  | some db_product_batch =>
    { db with productStock :=
        (setFirstProductBalance db.productStock product_id
          (db_product_batch.actual_balance + pieces)) }
  | none =>
    { db with productStock :=
        db.productStock ++ [{ product_id := product_id, actual_balance := pieces }] }

/-- The dict returned by `verify_packaging_stock`: the call site in
`create_product_batch` treats a truthy `error` field as success
(`if not verify_packaging_material['error']: return None, message`). -/
structure PackCheck where
  error : Bool
  message : String
  deriving Repr, DecidableEq

/-- Modelled from the spec: `verify_packaging_stock` is imported from
`src/services/products/utils.py`, a module absent from the sources.  Per the
spec it checks that every packaging material implied by the product's
package-compose entries has sufficient stock (one unit per piece produced),
aborting on the first deficiency and mutating nothing; the call site reads
the dict's `error` field as the success flag. -/
def verify_packaging_stock (db : DB) (product_id : Nat) (pieces : Int) : PackCheck :=
  let entries := db.packageCompose.filter (fun r => r.product_id == product_id)
  match entries.find? (fun e => db.packBalance e.package_material_id < (pieces : ℚ)) with
  | some e =>
    { error := false,
      message := "insufficient packaging stock for material "
        ++ toString e.package_material_id }
  | none => { error := true, message := "enough packaging stock" }

/-- Modelled from the spec: `subtract_packaging_material`, also from the
absent `src/services/products/utils.py`; per the spec's commit phase it
debits each packaging-material ledger (one unit per piece).  The call site
passes it no arguments at all; it is modelled here acting on the same product
and pieces that were verified. -/
def subtract_packaging_material (db : DB) (product_id : Nat) (pieces : Int) : DB :=
  { db with packagingStock :=
      ((db.packageCompose.filter (fun r => r.product_id == product_id)).foldl
        (fun l e => subFirstPackagingBalance l e.package_material_id (pieces : ℚ))
        db.packagingStock) }

/-- Truthiness of the value `subtract_material_batch` returns at the
`if not subtract_batch:` test in `create_product_batch`: the method returns a
2-tuple on every path, and a non-empty tuple is always truthy in Python, so
the test is constantly false and its error branch is dead code. -/
def pyTuple2Truthy : Bool := true

/-- `ProductBatchCrud.create_product_batch` (products/crud.py, lines 507-550):
verify the batch stock, verify the packaging stock, then debit the batch
ledger, debit the packaging ledger, set the generated id (`utils.create_id()`
is passed in as `gen_id`: `src/utils.py` is absent from the sources, and
`schemas.create_id` shows the "%Y-%m-%d-%H-%M-%S" format), credit the product
ledger, and append the audit row.  The duplicated `self.db.add(db_product)`
is idempotent on a SQLAlchemy session and is modelled as one append. -/
def ProductBatchCrud.create_product_batch (db : DB) (gen_id : String)
    (product_id : Nat) (pieces : Int) :
    DB × Outcome (Option ProductBatchRec × Option String) :=
  match ProductBatchCrud.verify_enough_batch db product_id pieces with
  | .failed message => (db, .returned (none, some message))
  | .ok batch_qty =>
    let verify_packaging_material := verify_packaging_stock db product_id pieces
    if !verify_packaging_material.error then
      (db, .returned (none, some verify_packaging_material.message))
    else
      let subRes := ProductBatchCrud.subtract_material_batch db product_id batch_qty
      let db1 := subRes.1
      let db2 := subtract_packaging_material db1 product_id pieces
      if !pyTuple2Truthy then
        (db2, .returned (none, some "the function for subtract packaging stock failed"))
      else
        let db_product : ProductBatchRec :=
          { product_id := product_id, product_batch_id := gen_id, pieces := pieces }
        let db3 := ProductBatchCrud.update_product_stock db2 product_id pieces
        let db4 : DB := { db3 with productBatches := db3.productBatches ++ [db_product] }
        (db4, .returned (some db_product, none))

/-- `schemas.MaterialStockUpdate` (stocks/schemas.py): optional `material_id`,
required `actual_balance`. -/
structure MaterialStockUpdate where
  material_id : Option Nat
  actual_balance : ℚ
  deriving Repr, DecidableEq

/-- The `update_data` dict of `MaterialStockCrud.update_material_stock`:
`material.model_dump(exclude_unset=True)` followed by
`update_data['actual_balance'] = actual_balance`. -/
structure MatUpdateData where
  material_id : Option Nat
  actual_balance : ℚ
  deriving Repr, DecidableEq

/-- The construction of `update_data` in `update_material_stock`: the schema
fields, with the `actual_balance` key overwritten by the explicit argument. -/
def MaterialStockCrud.mkUpdateData (material : MaterialStockUpdate)
    (actual_balance : ℚ) : MatUpdateData :=
  { material_id := material.material_id, actual_balance := actual_balance }

/-- `MaterialStockCrud.update_material_stock` (stocks/crud.py, lines 29-40):
loads the row by primary key (`query(...).get(material_id)`), builds
`update_data`, then — without ever assigning any attribute of the loaded
row — commits and refreshes, returning the stored row.  When the row is
absent, `db.refresh(None)` raises. -/
def MaterialStockCrud.update_material_stock (db : DB) (material : MaterialStockUpdate)
    (material_id : Nat) (actual_balance : ℚ) : DB × Outcome MaterialStockRec :=
  match db.materialStock.find? (fun r => r.id == material_id) with
  | none => (db, .raised (.otherError "Class NoneType is not mapped"))
  | some db_material =>
    let _update_data := MaterialStockCrud.mkUpdateData material actual_balance
    (db, .returned db_material)

/-- `schemas.FormProductStockCreate` (stocks/schemas.py). -/
structure FormProductStockCreate where
  product_id : Nat
  actual_balance : Int
  deriving Repr, DecidableEq

/-- The attributes defined by `class ProductStockCrud` (stocks/crud.py, lines
52-105), in source order. -/
def ProductStockCrud.methodNames : List String :=
  ["__init__", "get_stock_product", "get_stock_products",
   "create_product_stock", "update_stock_product", "delete_product"]

/-- `ProductStockCrud.create_product_stock` (stocks/crud.py, lines 64-83):
builds the row object, then evaluates `self.verify_enough_batch(...)`.
Attribute lookup on the instance and its class precedes the call; the class
defines no such attribute (that method lives on `ProductBatchCrud` in the
products service), so the lookup raises `AttributeError` before any
`db.add`/`db.commit` runs.  The found-branch is dead code kept only to show
where resolution would dispatch. -/
def ProductStockCrud.create_product_stock (db : DB) (product : FormProductStockCreate) :
    DB × Outcome (Option ProductStockRec) :=
  let db_product : ProductStockRec :=
    { product_id := product.product_id, actual_balance := product.actual_balance }
  if ProductStockCrud.methodNames.contains "verify_enough_batch" then
    (db, .returned (some db_product))
  else
    (db, .raised (.attributeError
      "ProductStockCrud object has no attribute verify_enough_batch"))

/-! Helper lemmas about the ledger primitives. -/

theorem find?_setFirstMaterialBalance_self (l : List MaterialStockRec) (mid : Nat) (b : ℚ) :
    (setFirstMaterialBalance l mid b).find? (fun r => r.material_id == mid)
      = (l.find? (fun r => r.material_id == mid)).map
          (fun r => { r with actual_balance := b }) := by
  induction l with
  | nil => rfl
  | cons r rest ih =>
    by_cases h : r.material_id = mid
    · have hb : (r.material_id == mid) = true := by simp [h]
      simp [setFirstMaterialBalance, List.find?, hb]
    · have hb : (r.material_id == mid) = false := by simp [h]
      simp [setFirstMaterialBalance, List.find?, hb, ih]

theorem find?_setFirstMaterialBalance_ne (l : List MaterialStockRec) (mid mid' : Nat)
    (h : mid' ≠ mid) (b : ℚ) :
    (setFirstMaterialBalance l mid b).find? (fun r => r.material_id == mid')
      = l.find? (fun r => r.material_id == mid') := by
  induction l with
  | nil => rfl
  | cons r rest ih =>
    by_cases hm : r.material_id = mid
    · have hne : (r.material_id == mid') = false := by
        simp
        intro hc
        exact h (hc ▸ hm)
      have hb : (r.material_id == mid) = true := by simp [hm]
      simp [setFirstMaterialBalance, List.find?, hb, hne]
    · have hb : (r.material_id == mid) = false := by simp [hm]
      by_cases hm' : r.material_id = mid'
      · have hb' : (r.material_id == mid') = true := by simp [hm']
        simp [setFirstMaterialBalance, List.find?, hb, hb']
      · have hb' : (r.material_id == mid') = false := by simp [hm']
        simp [setFirstMaterialBalance, List.find?, hb, hb', ih]

theorem find?_setFirstBatchBalance_self (l : List BatchStockRec) (pid : Nat) (b : ℚ) :
    (setFirstBatchBalance l pid b).find? (fun r => r.product_id == pid)
      = (l.find? (fun r => r.product_id == pid)).map
          (fun r => { r with actual_balance := b }) := by
  induction l with
  | nil => rfl
  | cons r rest ih =>
    by_cases h : r.product_id = pid
    · have hb : (r.product_id == pid) = true := by simp [h]
      simp [setFirstBatchBalance, List.find?, hb]
    · have hb : (r.product_id == pid) = false := by simp [h]
      simp [setFirstBatchBalance, List.find?, hb, ih]

theorem find?_setFirstProductBalance_self (l : List ProductStockRec) (pid : Nat) (b : Int) :
    (setFirstProductBalance l pid b).find? (fun r => r.product_id == pid)
      = (l.find? (fun r => r.product_id == pid)).map
          (fun r => { r with actual_balance := b }) := by
  induction l with
  | nil => rfl
  | cons r rest ih =>
    by_cases h : r.product_id = pid
    · have hb : (r.product_id == pid) = true := by simp [h]
      simp [setFirstProductBalance, List.find?, hb]
    · have hb : (r.product_id == pid) = false := by simp [h]
      simp [setFirstProductBalance, List.find?, hb, ih]

theorem find?_append_single {α : Type} (l : List α) (pr : α → Bool) (x : α)
    (h : l.find? pr = none) (hx : pr x = true) : (l ++ [x]).find? pr = some x := by
  induction l with
  | nil => simp [List.find?, hx]
  | cons a rest ih =>
    cases hpa : pr a with
    | true =>
      rw [List.find?_cons_of_pos _ hpa] at h
      exact absurd h (by simp)
    | false =>
      rw [List.find?_cons_of_neg _ (by simp [hpa])] at h
      rw [List.cons_append, List.find?_cons_of_neg _ (by simp [hpa])]
      exact ih h

theorem matBalance_set (db : DB) (ms : List MaterialStockRec) (m : Nat) :
    DB.matBalance { db with materialStock := ms } m
      = ((ms.find? (fun r => r.material_id == m)).map (fun r => r.actual_balance)).getD 0 :=
  rfl

/-- Effect of `subtract_material` on a successful run: only the material
table changes; each listed material's balance drops by its listed quantity
(assuming no duplicated material in the list), and every other material's
balance is untouched. -/
theorem subtract_material_spec (rl : List Requirement) :
    ∀ (db db' : DB) (out : List (Nat × ℚ)),
      (rl.map Requirement.material_id).Nodup →
      BatchCrud.subtract_material db rl = (db', Outcome.returned out) →
      (∃ ms, db' = { db with materialStock := ms })
      ∧ (∀ r ∈ rl, db'.matBalance r.material_id = db.matBalance r.material_id - r.quantity)
      ∧ (∀ m, m ∉ rl.map Requirement.material_id → db'.matBalance m = db.matBalance m) := by
  induction rl with
  | nil =>
    intro db db' out _ hs
    rw [BatchCrud.subtract_material] at hs
    injection hs with h1 h2
    subst h1
    exact ⟨⟨db.materialStock, rfl⟩, by simp, fun m _ => rfl⟩
  | cons item rest ih =>
    intro db db' out hnd hs
    rw [List.map_cons, List.nodup_cons] at hnd
    obtain ⟨hni, hndr⟩ := hnd
    rw [BatchCrud.subtract_material] at hs
    cases hf : db.findMaterialStock item.material_id with
    | none => rw [hf] at hs; simp at hs
    | some m0 =>
      rw [hf] at hs
      simp only [] at hs
      cases hsub : BatchCrud.subtract_material { db with materialStock := setFirstMaterialBalance db.materialStock item.material_id (m0.actual_balance - item.quantity) } rest with
      | mk db2 o2 =>
        rw [hsub] at hs
        cases o2 with
        | raised e => simp at hs
        | returned tl =>
          simp only [Prod.mk.injEq, Outcome.returned.injEq] at hs
          obtain ⟨h1, _h2⟩ := hs
          subst h1
          obtain ⟨⟨ms, hms⟩, hall, hother⟩ := ih _ db2 tl hndr hsub
          have hfind : db.materialStock.find? (fun r => r.material_id == item.material_id)
              = some m0 := hf
          have hd1head : DB.matBalance { db with materialStock := setFirstMaterialBalance db.materialStock item.material_id (m0.actual_balance - item.quantity) } item.material_id = m0.actual_balance - item.quantity := by
            rw [matBalance_set, find?_setFirstMaterialBalance_self, hfind]
            rfl
          have hdbhead : db.matBalance item.material_id = m0.actual_balance := by
            rw [DB.matBalance, hf]
            rfl
          refine ⟨⟨ms, hms⟩, ?_, ?_⟩
          · intro r hr
            rcases List.mem_cons.mp hr with hr | hr
            · subst hr
              rw [hother r.material_id hni, hd1head, hdbhead]
            · have hne : r.material_id ≠ item.material_id := by
                intro hc
                exact hni (hc ▸ List.mem_map_of_mem Requirement.material_id hr)
              rw [hall r hr, matBalance_set,
                find?_setFirstMaterialBalance_ne _ _ _ hne]
              rfl
          · intro m hm
            simp only [List.map_cons, List.mem_cons, not_or] at hm
            obtain ⟨hm1, hm2⟩ := hm
            rw [hother m hm2, matBalance_set,
              find?_setFirstMaterialBalance_ne _ _ _ hm1]
            rfl

/-- Effect of `update_stock_batch`: only the batch table changes, and the
batch row for `product_id` afterwards exists with the old balance (0 when
absent) plus `quantity`. -/
theorem update_stock_batch_spec (db : DB) (p : Nat) (q : ℚ) :
    (∃ bs, BatchCrud.update_stock_batch db p q = { db with batchStock := bs })
    ∧ ∃ r, (BatchCrud.update_stock_batch db p q).findBatchStock p = some r
        ∧ r.actual_balance = db.batchBalance p + q := by
  rw [BatchCrud.update_stock_batch]
  cases hf : db.findBatchStock p with
  | some b =>
    refine ⟨⟨_, rfl⟩, ⟨{ b with actual_balance := b.actual_balance + q }, ?_, ?_⟩⟩
    · have hf' : db.batchStock.find? (fun r => r.product_id == p) = some b := hf
      show List.find? _ _ = _
      rw [find?_setFirstBatchBalance_self, hf']
      rfl
    · rw [DB.batchBalance, hf]
      rfl
  | none =>
    refine ⟨⟨_, rfl⟩, ⟨{ product_id := p, actual_balance := q }, ?_, ?_⟩⟩
    · show List.find? _ _ = _
      exact find?_append_single _ _ _ hf (by simp)
    · rw [DB.batchBalance, hf]
      simp

/-- Effect of `update_product_stock`: only the product table changes, and the
product row for `product_id` afterwards exists with the old balance (0 when
absent) plus `pieces`. -/
theorem update_product_stock_spec (db : DB) (p : Nat) (pieces : Int) :
    (∃ ps, ProductBatchCrud.update_product_stock db p pieces = { db with productStock := ps })
    ∧ (ProductBatchCrud.update_product_stock db p pieces).productBalance p
        = db.productBalance p + pieces := by
  cases hf : db.findProductStock p with
  | some b =>
    have hf2 : db.productStock.find? (fun r => r.product_id == p) = some b := hf
    constructor
    · simp only [ProductBatchCrud.update_product_stock, hf]
      exact ⟨_, rfl⟩
    · simp only [ProductBatchCrud.update_product_stock, hf, DB.productBalance,
        DB.findProductStock]
      rw [hf2]
      show (Option.map _ (List.find? _ _)).getD 0 = _
      rw [find?_setFirstProductBalance_self, hf2]
      rfl
  | none =>
    have hf2 : db.productStock.find? (fun r => r.product_id == p) = none := hf
    constructor
    · simp only [ProductBatchCrud.update_product_stock, hf]
      exact ⟨_, rfl⟩
    · simp only [ProductBatchCrud.update_product_stock, hf, DB.productBalance,
        DB.findProductStock]
      rw [hf2, find?_append_single _ _ _ hf2 (by simp)]
      simp

/-- `check_formula_stock` returns the enough-stock response when every listed
material has a stock row covering its requirement. -/
theorem check_formula_stock_pass (db : DB) (rl : List Requirement)
    (h : ∀ x ∈ rl, ∃ s, db.findMaterialStock x.material_id = some s
        ∧ ¬ s.actual_balance < x.quantity) :
    BatchCrud.check_formula_stock db rl
      = Outcome.returned { message := "enough stock", material_id := 0, outcome := true } := by
  induction rl with
  | nil => rfl
  | cons item rest ih =>
    obtain ⟨s, hfs, hge⟩ := h item (List.mem_cons_self item rest)
    simp only [BatchCrud.check_formula_stock, hfs]
    rw [if_neg hge]
    exact ih (fun x hx => h x (List.mem_cons_of_mem item hx))

/-- `check_formula_stock` walks the list in order and answers for the first
deficient material, whatever stands after it. -/
theorem check_formula_stock_first_deficient (db : DB) (l₁ l₂ : List Requirement)
    (r : Requirement)
    (h₁ : ∀ x ∈ l₁, ∃ s, db.findMaterialStock x.material_id = some s
        ∧ ¬ s.actual_balance < x.quantity)
    (hr : ∃ s, db.findMaterialStock r.material_id = some s
        ∧ s.actual_balance < r.quantity) :
    BatchCrud.check_formula_stock db (l₁ ++ r :: l₂)
      = Outcome.returned { message := "insufficient stock", material_id := r.material_id, outcome := false } := by
  induction l₁ with
  | nil =>
    obtain ⟨s, hfs, hlt⟩ := hr
    rw [List.nil_append]
    simp only [BatchCrud.check_formula_stock, hfs]
    rw [if_pos hlt]
  | cons item rest ih =>
    obtain ⟨s, hfs, hge⟩ := h₁ item (List.mem_cons_self item rest)
    rw [List.cons_append]
    simp only [BatchCrud.check_formula_stock, hfs]
    rw [if_neg hge]
    exact ih (fun x hx => h₁ x (List.mem_cons_of_mem item hx))

/-- `check_formula_stock` raises `AttributeError` at the first listed material
whose stock row is absent, when all earlier materials are present and
sufficient. -/
theorem check_formula_stock_absent (db : DB) (l₁ l₂ : List Requirement)
    (r : Requirement)
    (h₁ : ∀ x ∈ l₁, ∃ s, db.findMaterialStock x.material_id = some s
        ∧ ¬ s.actual_balance < x.quantity)
    (hr : db.findMaterialStock r.material_id = none) :
    BatchCrud.check_formula_stock db (l₁ ++ r :: l₂)
      = Outcome.raised (.attributeError "NoneType object has no attribute material_id") := by
  induction l₁ with
  | nil =>
    rw [List.nil_append]
    simp only [BatchCrud.check_formula_stock, hr]
  | cons item rest ih =>
    obtain ⟨s, hfs, hge⟩ := h₁ item (List.mem_cons_self item rest)
    rw [List.cons_append]
    simp only [BatchCrud.check_formula_stock, hfs]
    rw [if_neg hge]
    exact ih (fun x hx => h₁ x (List.mem_cons_of_mem item hx))

/-- When `check_material_stock` returns normally, the product has formula
rows and the returned list is exactly those rows scaled by the batch
quantity. -/
theorem check_material_stock_returned (db : DB) (p : Nat) (q : ℚ)
    (fl : List Requirement)
    (h : BatchCrud.check_material_stock db p q = Outcome.returned fl) :
    fl = (FormulaCrud.get_formula db p).map
        (fun e => { material_id := e.material_id, quantity := e.quantity * q }) := by
  rw [BatchCrud.check_material_stock] at h
  by_cases he : (db.formulas.filter (fun r => r.product_id == p)).isEmpty
  · rw [if_pos he] at h
    exact absurd h (by simp)
  · rw [if_neg he] at h
    injection h with h1
    exact h1.symm

/-! Claim theorems. -/

/-- Claim C1: for every successful `create_batch(p, q)` (a record and a null
message returned), every formula entry `(m, u)` of `p` has its Material
Ledger balance decreased by exactly `u*q`, and the Batch Ledger row at `p`
afterwards exists with the pre-call balance plus `q` (an absent row counting
as balance 0 and being created with balance `q`).  The no-duplicate
hypothesis is the spec's formula uniqueness invariant (at most one entry per
(product, material) pair). -/
theorem createBatch_mass_conservation
    (db db' : DB) (p : Nat) (q : ℚ) (rec0 : BatchRec)
    (hnodup : ((FormulaCrud.get_formula db p).map FormulaRec.material_id).Nodup)
    (hsucc : BatchCrud.create_batch db p q = (db', Outcome.returned (some rec0, none))) :
    (∀ e ∈ FormulaCrud.get_formula db p,
        db'.matBalance e.material_id = db.matBalance e.material_id - e.quantity * q)
    ∧ ∃ r, db'.findBatchStock p = some r ∧ r.actual_balance = db.batchBalance p + q := by
  rw [BatchCrud.create_batch] at hsucc
  simp only [] at hsucc
  cases h1 : BatchCrud.check_material_stock db p q with
  | raised e =>
    rw [h1] at hsucc
    simp at hsucc
  | returned fl =>
    rw [h1] at hsucc
    simp only [] at hsucc
    cases h2 : BatchCrud.check_formula_stock db fl with
    | raised e =>
      rw [h2] at hsucc
      simp at hsucc
    | returned c =>
      rw [h2] at hsucc
      simp only [] at hsucc
      cases hc : c.outcome with
      | false =>
        rw [hc] at hsucc
        simp at hsucc
      | true =>
        rw [hc] at hsucc
        simp only [Bool.not_true, Bool.false_eq_true, if_false] at hsucc
        cases hsub : BatchCrud.subtract_material { db with batches := db.batches ++ [{ product_id := p, quantity := q }] } fl with
        | mk db2 o2 =>
          rw [hsub] at hsucc
          cases o2 with
          | raised e => simp at hsucc
          | returned tl =>
            simp only [Prod.mk.injEq, Outcome.returned.injEq] at hsucc
            obtain ⟨hdb', _⟩ := hsucc
            subst hdb'
            have hfl := check_material_stock_returned db p q fl h1
            have hkeys : fl.map Requirement.material_id
                = (FormulaCrud.get_formula db p).map FormulaRec.material_id := by
              rw [hfl, List.map_map]
              rfl
            have hnd : (fl.map Requirement.material_id).Nodup := by
              rw [hkeys]
              exact hnodup
            obtain ⟨⟨ms, hms⟩, hall, _hother⟩ :=
              subtract_material_spec fl _ db2 tl hnd hsub
            obtain ⟨⟨bs, hbs⟩, ⟨r, hr1, hr2⟩⟩ := update_stock_batch_spec db2 p q
            constructor
            · intro e he
              have hmem : ({ material_id := e.material_id, quantity := e.quantity * q }
                  : Requirement) ∈ fl := by
                rw [hfl]
                exact List.mem_map_of_mem _ he
              have hbal := hall _ hmem
              rw [hbs]
              exact hbal
            · refine ⟨r, hr1, ?_⟩
              rw [hr2, hms]
              rfl

/-- Concrete instance of C1: product 1 with formula entries (material 1,
qty 2) and (material 2, qty 3), stocks 50 and 100, batch quantity 10. -/
def dbC1 : DB :=
  { formulas := [{ id := 1, product_id := 1, material_id := 1, quantity := 2 },
                 { id := 2, product_id := 1, material_id := 2, quantity := 3 }],
    materialStock := [{ id := 1, material_id := 1, actual_balance := 50 },
                      { id := 2, material_id := 2, actual_balance := 100 }],
    batchStock := [], productStock := [],
    products := [{ id := 1, product_name := "omega", size := 2 }],
    batches := [], productBatches := [], packageCompose := [], packagingStock := [] }

/-- Witness for C1 at `dbC1`: `create_batch(1, 10)` succeeds and the theorem
applies. -/
theorem createBatch_mass_conservation_witness :
    (∀ e ∈ FormulaCrud.get_formula dbC1 1,
        (BatchCrud.create_batch dbC1 1 10).1.matBalance e.material_id
          = dbC1.matBalance e.material_id - e.quantity * 10)
    ∧ ∃ r, (BatchCrud.create_batch dbC1 1 10).1.findBatchStock 1 = some r
        ∧ r.actual_balance = dbC1.batchBalance 1 + 10 :=
  createBatch_mass_conservation dbC1 (BatchCrud.create_batch dbC1 1 10).1 1 10
    { product_id := 1, quantity := 10 } (by decide) (by with_unfolding_all decide)

/-- Claim C2: whenever `create_batch` or `create_product_batch` returns a
failure (no record, a message), the returned state is exactly the pre-call
state — every ledger balance (material, batch, packaging, product) is
unchanged, because every sufficiency check runs before any mutation.  (The
one failure return placed after the debits, `"the function for subtract
packaging stock failed"`, is dead code: its guard tests the falsiness of a
2-tuple.) -/
theorem conversions_no_mutation_on_failure :
    (∀ (db db' : DB) (p : Nat) (q : ℚ) (msg : String),
        BatchCrud.create_batch db p q = (db', Outcome.returned (none, some msg)) → db' = db)
    ∧ (∀ (db db' : DB) (gid : String) (p : Nat) (pieces : Int) (msg : String),
        ProductBatchCrud.create_product_batch db gid p pieces
          = (db', Outcome.returned (none, some msg)) → db' = db) := by
  constructor
  · intro db db' p q msg hfail
    rw [BatchCrud.create_batch] at hfail
    simp only [] at hfail
    cases h1 : BatchCrud.check_material_stock db p q with
    | raised e =>
      rw [h1] at hfail
      simp at hfail
    | returned fl =>
      rw [h1] at hfail
      simp only [] at hfail
      cases h2 : BatchCrud.check_formula_stock db fl with
      | raised e =>
        rw [h2] at hfail
        simp at hfail
      | returned c =>
        rw [h2] at hfail
        simp only [] at hfail
        cases hc : c.outcome with
        | false =>
          rw [hc] at hfail
          simp only [Bool.not_false, if_true] at hfail
          injection hfail with ha _hb
          exact ha.symm
        | true =>
          rw [hc] at hfail
          simp only [Bool.not_true, Bool.false_eq_true, if_false] at hfail
          cases hsub : BatchCrud.subtract_material { db with batches := db.batches ++ [{ product_id := p, quantity := q }] } fl with
          | mk db2 o2 =>
            rw [hsub] at hfail
            cases o2 with
            | raised e => simp at hfail
            | returned tl => simp at hfail
  · intro db db' gid p pieces msg hfail
    rw [ProductBatchCrud.create_product_batch] at hfail
    cases h1 : ProductBatchCrud.verify_enough_batch db p pieces with
    | failed m =>
      rw [h1] at hfail
      injection hfail with ha _hb
      exact ha.symm
    | ok bq =>
      rw [h1] at hfail
      simp only [] at hfail
      by_cases h2 : (verify_packaging_stock db p pieces).error = true
      · rw [h2] at hfail
        simp only [Bool.not_true, Bool.false_eq_true, if_false, pyTuple2Truthy] at hfail
        simp at hfail
      · rw [Bool.not_eq_true] at h2
        rw [h2] at hfail
        simp only [Bool.not_false, if_true] at hfail
        injection hfail with ha _hb
        exact ha.symm

/-- Concrete failing inputs for C2: product 1 needs 20 of material 1 but only
5 are stocked, and product 1 has no batch-stock row. -/
def dbC2 : DB :=
  { formulas := [{ id := 1, product_id := 1, material_id := 1, quantity := 2 }],
    materialStock := [{ id := 1, material_id := 1, actual_balance := 5 }],
    batchStock := [], productStock := [],
    products := [{ id := 1, product_name := "omega", size := 2 }],
    batches := [], productBatches := [], packageCompose := [], packagingStock := [] }

/-- Witness for C2 at `dbC2`: both conversions fail there and both leave the
state untouched. -/
theorem conversions_no_mutation_on_failure_witness :
    (BatchCrud.create_batch dbC2 1 10).1 = dbC2
    ∧ (ProductBatchCrud.create_product_batch dbC2 "g" 1 7).1 = dbC2 :=
  ⟨conversions_no_mutation_on_failure.1 dbC2 (BatchCrud.create_batch dbC2 1 10).1 1 10
      ("insufficient stock" ++ " for product " ++ toString (1 : Nat))
      (by with_unfolding_all decide),
   conversions_no_mutation_on_failure.2 dbC2
      (ProductBatchCrud.create_product_batch dbC2 "g" 1 7).1 "g" 1 7
      ("the product " ++ toString (1 : Nat) ++ " is not in batch stock")
      (by with_unfolding_all decide)⟩

/-- Claim C3: `create_batch` evaluates the requirements in formula order
during validation; at the first requirement whose material-stock balance is
below `qtyPerUnit * quantity` it aborts naming that material, independently
of anything after it in the list (later deficient materials are neither
evaluated nor reported), and leaves the state unchanged. -/
theorem createBatch_first_deficiency
    (db : DB) (p : Nat) (q : ℚ) (l₁ l₂ : List Requirement) (r : Requirement)
    (hreq : (FormulaCrud.get_formula db p).map
        (fun e => { material_id := e.material_id, quantity := e.quantity * q }) = l₁ ++ r :: l₂)
    (h₁ : ∀ x ∈ l₁, ∃ s, db.findMaterialStock x.material_id = some s
        ∧ ¬ s.actual_balance < x.quantity)
    (hr : ∃ s, db.findMaterialStock r.material_id = some s ∧ s.actual_balance < r.quantity) :
    BatchCrud.create_batch db p q
      = (db, Outcome.returned (none,
          some ("insufficient stock" ++ " for product " ++ toString r.material_id))) := by
  have hform : ¬ (db.formulas.filter (fun rr => rr.product_id == p)).isEmpty = true := by
    intro hemp
    rw [FormulaCrud.get_formula] at hreq
    rw [List.isEmpty_iff] at hemp
    rw [hemp] at hreq
    simp at hreq
  have h1 : BatchCrud.check_material_stock db p q = Outcome.returned (l₁ ++ r :: l₂) := by
    rw [BatchCrud.check_material_stock]
    rw [if_neg hform]
    rw [FormulaCrud.get_formula] at hreq
    rw [hreq]
  have h2 := check_formula_stock_first_deficient db l₁ l₂ r h₁ hr
  rw [BatchCrud.create_batch]
  simp only []
  rw [h1]
  simp only []
  rw [h2]
  rfl

/-- Concrete instance of C3, the spec's own scenario: Formula(product 1) =
(material 1, qty 2), (material 2, qty 3); stock of material 1 is 5, of
material 2 is 100. -/
def dbC3 : DB :=
  { formulas := [{ id := 1, product_id := 1, material_id := 1, quantity := 2 },
                 { id := 2, product_id := 1, material_id := 2, quantity := 3 }],
    materialStock := [{ id := 1, material_id := 1, actual_balance := 5 },
                      { id := 2, material_id := 2, actual_balance := 100 }],
    batchStock := [], productStock := [],
    products := [{ id := 1, product_name := "omega", size := 2 }],
    batches := [], productBatches := [], packageCompose := [], packagingStock := [] }

/-- Witness for C3 at `dbC3`: `create_batch(1, 10)` fails naming material 1
(required 20, available 5) and material 2's balance stays 100. -/
theorem createBatch_first_deficiency_witness :
    BatchCrud.create_batch dbC3 1 10
      = (dbC3, Outcome.returned (none,
          some ("insufficient stock" ++ " for product " ++ toString (1 : Nat))))
    ∧ dbC3.matBalance 2 = 100 :=
  ⟨createBatch_first_deficiency dbC3 1 10 [] [{ material_id := 2, quantity := 30 }]
      { material_id := 1, quantity := 20 }
      (by with_unfolding_all decide) (by simp)
      ⟨{ id := 1, material_id := 1, actual_balance := 5 }, by with_unfolding_all decide⟩,
   by with_unfolding_all decide⟩

/-- Claim C4: with the product present and its formula weight `w` nonzero,
`create_product_batch(p, pieces)` computes
`batch_qty = product.size * pieces / w`; it aborts with a failure message
when the Batch Ledger balance is below `batch_qty`, and on success (the
packaging check passing) it debits the Batch Ledger at `p` by exactly
`batch_qty` and credits the Product Ledger at `p` by exactly `pieces`. -/
theorem createProductBatch_batch_qty
    (db : DB) (gid : String) (p : Nat) (pieces : Int)
    (b : BatchStockRec) (prod : ProductRec) (w : ℚ)
    (hb : db.findBatchStock p = some b)
    (hp : db.findProduct p = some prod)
    (hw : FormulaCrud.get_formula_weight db p = some w)
    (hw0 : w ≠ 0) :
    (b.actual_balance < prod.size * (pieces : ℚ) / w →
        ProductBatchCrud.create_product_batch db gid p pieces
          = (db, Outcome.returned (none,
              some ("there is not enough batch in stock for product " ++ toString p))))
    ∧ (¬ b.actual_balance < prod.size * (pieces : ℚ) / w →
        (verify_packaging_stock db p pieces).error = true →
        ∃ recd db2,
          ProductBatchCrud.create_product_batch db gid p pieces
            = (db2, Outcome.returned (some recd, none))
          ∧ db2.batchBalance p = db.batchBalance p - prod.size * (pieces : ℚ) / w
          ∧ db2.productBalance p = db.productBalance p + pieces) := by
  have hbe : (w == 0) = false := by simp [hw0]
  have hv0 : ProductBatchCrud.verify_enough_batch db p pieces = (if b.actual_balance < prod.size * (pieces : ℚ) / w then VerifyResult.failed ("there is not enough batch in stock for product " ++ toString p) else VerifyResult.ok (prod.size * (pieces : ℚ) / w)) := by
    rw [ProductBatchCrud.verify_enough_batch, hb]
    simp only []
    rw [hp]
    simp only []
    rw [hw]
    simp only [Option.getD_some]
    rw [hbe]
    simp only [Bool.false_eq_true, if_false]
  constructor
  · intro hlt
    have hv : ProductBatchCrud.verify_enough_batch db p pieces = VerifyResult.failed ("there is not enough batch in stock for product " ++ toString p) := by
      rw [hv0, if_pos hlt]
    rw [ProductBatchCrud.create_product_batch, hv]
  · intro hge hpack
    have hv : ProductBatchCrud.verify_enough_batch db p pieces = VerifyResult.ok (prod.size * (pieces : ℚ) / w) := by
      rw [hv0, if_neg hge]
    have hbf : db.batchStock.find? (fun r => r.product_id == p) = some b := hb
    have hsub : ProductBatchCrud.subtract_material_batch db p (prod.size * (pieces : ℚ) / w) = ({ db with batchStock := setFirstBatchBalance db.batchStock p (b.actual_balance - prod.size * (pieces : ℚ) / w) }, (some { b with actual_balance := b.actual_balance - prod.size * (pieces : ℚ) / w }, none)) := by
      rw [ProductBatchCrud.subtract_material_batch, hb]
    rw [ProductBatchCrud.create_product_batch, hv]
    simp only []
    rw [hpack]
    simp only [Bool.not_true, Bool.false_eq_true, if_false]
    rw [hsub]
    simp only []
    refine ⟨_, _, rfl, ?_, ?_⟩
    · obtain ⟨ps, hps⟩ := (update_product_stock_spec (subtract_packaging_material { db with batchStock := setFirstBatchBalance db.batchStock p (b.actual_balance - prod.size * (pieces : ℚ) / w) } p pieces) p pieces).1
      show (ProductBatchCrud.update_product_stock (subtract_packaging_material { db with batchStock := setFirstBatchBalance db.batchStock p (b.actual_balance - prod.size * (pieces : ℚ) / w) } p pieces) p pieces).batchBalance p = db.batchBalance p - prod.size * (pieces : ℚ) / w
      rw [hps]
      show (Option.map (fun r => r.actual_balance) ((setFirstBatchBalance db.batchStock p (b.actual_balance - prod.size * (pieces : ℚ) / w)).find? (fun r => r.product_id == p))).getD 0 = db.batchBalance p - prod.size * (pieces : ℚ) / w
      rw [find?_setFirstBatchBalance_self, hbf, DB.batchBalance, hb]
      rfl
    · show (ProductBatchCrud.update_product_stock (subtract_packaging_material { db with batchStock := setFirstBatchBalance db.batchStock p (b.actual_balance - prod.size * (pieces : ℚ) / w) } p pieces) p pieces).productBalance p = db.productBalance p + pieces
      rw [(update_product_stock_spec (subtract_packaging_material { db with batchStock := setFirstBatchBalance db.batchStock p (b.actual_balance - prod.size * (pieces : ℚ) / w) } p pieces) p pieces).2]
      rfl

/-- Concrete instance of C4: product 1 of size 2, formula weight 4, batch
stock 100, no packaging requirements; 5 pieces need 2*5/4 = 5/2 of batch. -/
def dbC4 : DB :=
  { formulas := [{ id := 1, product_id := 1, material_id := 1, quantity := 4 }],
    materialStock := [{ id := 1, material_id := 1, actual_balance := 50 }],
    batchStock := [{ product_id := 1, actual_balance := 100 }], productStock := [],
    products := [{ id := 1, product_name := "omega", size := 2 }],
    batches := [], productBatches := [], packageCompose := [], packagingStock := [] }

/-- Witness for C4 at `dbC4`: `create_product_batch(1, 5)` succeeds, the
batch ledger drops by 5/2 and the product ledger rises by 5. -/
theorem createProductBatch_batch_qty_witness :
    ∃ recd db2,
      ProductBatchCrud.create_product_batch dbC4 "g" 1 5
        = (db2, Outcome.returned (some recd, none))
      ∧ db2.batchBalance 1 = dbC4.batchBalance 1 - (2 : ℚ) * ((5 : Int) : ℚ) / 4
      ∧ db2.productBalance 1 = dbC4.productBalance 1 + 5 :=
  (createProductBatch_batch_qty dbC4 "g" 1 5 { product_id := 1, actual_balance := 100 }
      { id := 1, product_name := "omega", size := 2 } 4
      (by decide) (by decide) (by with_unfolding_all decide)
      (by with_unfolding_all decide)).2
    (by with_unfolding_all decide) (by decide)

/-- Zero-weight formula for product 2 (one entry of quantity 0), with no
batch-stock row for product 2. -/
def dbC5 : DB :=
  { formulas := [{ id := 1, product_id := 2, material_id := 1, quantity := 0 }],
    materialStock := [], batchStock := [], productStock := [],
    products := [{ id := 2, product_name := "omega", size := 1 }],
    batches := [], productBatches := [], packageCompose := [], packagingStock := [] }

/-- Counterexample to C5 as stated: product 2 has a zero-weight formula, yet
`create_product_batch(2, 3)` fails with the batch-stock message, not the
invalid-formula one, because `verify_enough_batch` checks the batch-stock row
before the formula weight. -/
theorem createProductBatch_zero_weight_counterexample :
    FormulaCrud.get_formula_weight dbC5 2 = some 0
    ∧ ProductBatchCrud.create_product_batch dbC5 "g" 2 3
        = (dbC5, Outcome.returned (none,
            some ("the product " ++ toString (2 : Nat) ++ " is not in batch stock")))
    ∧ ("the product " ++ toString (2 : Nat) ++ " is not in batch stock")
        ≠ ("the product " ++ toString (2 : Nat) ++ " is not in formulas") :=
  ⟨by with_unfolding_all decide, by with_unfolding_all decide, by decide⟩

/-- Claim C5 (amended): for a product whose formula weight is 0,
`create_product_batch` always fails and leaves every ledger untouched, and
the division by the formula weight is never reached; the failure message is
the invalid-formula one exactly when the batch-stock row and the product row
exist (otherwise an earlier existence check fails first). -/
theorem createProductBatch_zero_weight_guard
    (db : DB) (gid : String) (p : Nat) (pieces : Int)
    (hf : FormulaCrud.get_formula_weight db p = some 0) :
    (∃ msg, ProductBatchCrud.create_product_batch db gid p pieces
        = (db, Outcome.returned (none, some msg)))
    ∧ (∀ b prod, db.findBatchStock p = some b → db.findProduct p = some prod →
        ProductBatchCrud.create_product_batch db gid p pieces
          = (db, Outcome.returned (none,
              some ("the product " ++ toString p ++ " is not in formulas")))) := by
  have hv : ∀ r, ProductBatchCrud.verify_enough_batch db p pieces = VerifyResult.failed r →
      ProductBatchCrud.create_product_batch db gid p pieces
        = (db, Outcome.returned (none, some r)) := by
    intro r hr
    rw [ProductBatchCrud.create_product_batch, hr]
  cases hbs : db.findBatchStock p with
  | none =>
    have hver : ProductBatchCrud.verify_enough_batch db p pieces
        = VerifyResult.failed ("the product " ++ toString p ++ " is not in batch stock") := by
      rw [ProductBatchCrud.verify_enough_batch, hbs]
    refine ⟨⟨_, hv _ hver⟩, ?_⟩
    intro b prod hb _
    exact absurd hb (by simp)
  | some b =>
    cases hpr : db.findProduct p with
    | none =>
      have hver : ProductBatchCrud.verify_enough_batch db p pieces
          = VerifyResult.failed ("the product " ++ toString p ++ " is not a valid product") := by
        rw [ProductBatchCrud.verify_enough_batch, hbs]
        simp only []
        rw [hpr]
      refine ⟨⟨_, hv _ hver⟩, ?_⟩
      intro b' prod hb' hp'
      exact absurd hp' (by simp)
    | some prod =>
      have hver : ProductBatchCrud.verify_enough_batch db p pieces
          = VerifyResult.failed ("the product " ++ toString p ++ " is not in formulas") := by
        rw [ProductBatchCrud.verify_enough_batch, hbs]
        simp only []
        rw [hpr]
        simp only []
        rw [hf]
        simp only [Option.getD_some, beq_self_eq_true, if_true]
      exact ⟨⟨_, hv _ hver⟩, fun b' prod' _ _ => hv _ hver⟩

/-- Zero-weight formula for product 2, with the batch-stock and product rows
present. -/
def dbC5w : DB :=
  { formulas := [{ id := 1, product_id := 2, material_id := 1, quantity := 0 }],
    materialStock := [], batchStock := [{ product_id := 2, actual_balance := 50 }],
    productStock := [],
    products := [{ id := 2, product_name := "omega", size := 1 }],
    batches := [], productBatches := [], packageCompose := [], packagingStock := [] }

/-- Witness for the amended C5 at `dbC5w`: with both rows present the
zero-weight product fails with the formula message and no ledger changes. -/
theorem createProductBatch_zero_weight_guard_witness :
    ProductBatchCrud.create_product_batch dbC5w "g" 2 3
      = (dbC5w, Outcome.returned (none,
          some ("the product " ++ toString (2 : Nat) ++ " is not in formulas"))) :=
  (createProductBatch_zero_weight_guard dbC5w "g" 2 3 (by with_unfolding_all decide)).2
    { product_id := 2, actual_balance := 50 }
    { id := 2, product_name := "omega", size := 1 } (by decide) (by decide)

/-- No formula rows at all, so product 1 has none. -/
def dbC6 : DB :=
  { formulas := [], materialStock := [{ id := 1, material_id := 1, actual_balance := 9 }],
    batchStock := [], productStock := [],
    products := [{ id := 1, product_name := "omega", size := 2 }],
    batches := [], productBatches := [], packageCompose := [], packagingStock := [] }

/-- Counterexample to C6 as stated: on a product with no formula,
`create_batch` does not return a `(None, message)` failure — it raises
`TypeError`, because `check_material_stock` builds its 404 object from
`http.client.HTTPException` (the line-6 import shadows FastAPI's) with
keyword arguments. -/
theorem createBatch_no_formula_counterexample :
    FormulaCrud.get_formula dbC6 1 = []
    ∧ (BatchCrud.create_batch dbC6 1 5).2
        = Outcome.raised (PyErr.typeError "HTTPException() takes no keyword arguments") :=
  ⟨by decide, by with_unfolding_all decide⟩

/-- Claim C6 (amended): for every product with no formula entries, the
formula lookup returns the empty set and the weight lookup returns `None`;
`create_batch` on such a product raises an internal `TypeError` before any
ledger write (the returned state is the pre-call state), instead of
returning an absent-result/message failure. -/
theorem createBatch_no_formula_raises
    (db : DB) (p : Nat) (q : ℚ)
    (h : FormulaCrud.get_formula db p = []) :
    FormulaCrud.get_formula_weight db p = none
    ∧ BatchCrud.create_batch db p q
        = (db, Outcome.raised (PyErr.typeError "HTTPException() takes no keyword arguments")) := by
  have hfil : db.formulas.filter (fun r => r.product_id == p) = [] := h
  constructor
  · rw [FormulaCrud.get_formula_weight]
    rw [h]
    rfl
  · have hcm : BatchCrud.check_material_stock db p q
        = Outcome.raised (PyErr.typeError "HTTPException() takes no keyword arguments") := by
      rw [BatchCrud.check_material_stock]
      rw [hfil]
      rfl
    rw [BatchCrud.create_batch]
    simp only []
    rw [hcm]

/-- Witness for the amended C6 at `dbC6`. -/
theorem createBatch_no_formula_raises_witness :
    FormulaCrud.get_formula_weight dbC6 1 = none
    ∧ BatchCrud.create_batch dbC6 1 5
        = (dbC6, Outcome.raised (PyErr.typeError "HTTPException() takes no keyword arguments")) :=
  createBatch_no_formula_raises dbC6 1 5 (by decide)

/-- Formula of product 1 names material 7, which has no material-stock row. -/
def dbC7 : DB :=
  { formulas := [{ id := 1, product_id := 1, material_id := 7, quantity := 1 }],
    materialStock := [], batchStock := [], productStock := [],
    products := [{ id := 1, product_name := "omega", size := 2 }],
    batches := [], productBatches := [], packageCompose := [], packagingStock := [] }

/-- Counterexample to C7 as stated: with material 7's stock row absent, the
validation read is not total — `check_formula_stock` raises
`AttributeError` (dereferencing the `None` row) instead of returning the
insufficient-stock outcome, and `create_batch` propagates the exception. -/
theorem check_formula_stock_absent_counterexample :
    DB.findMaterialStock dbC7 7 = none
    ∧ BatchCrud.check_formula_stock dbC7 [{ material_id := 7, quantity := 5 }]
        = Outcome.raised (PyErr.attributeError "NoneType object has no attribute material_id")
    ∧ (BatchCrud.create_batch dbC7 1 5).2
        = Outcome.raised (PyErr.attributeError "NoneType object has no attribute material_id") :=
  ⟨by decide, by with_unfolding_all decide, by with_unfolding_all decide⟩

/-- Claim C7 (amended): a requirement whose material-stock row is absent
makes `check_formula_stock` raise `AttributeError` at that requirement (all
earlier ones being present and sufficient), rather than reporting
`InsufficientStock`; `create_batch` then raises too, with no ledger
mutated. -/
theorem check_formula_stock_absent_raises
    (db : DB) (l₁ l₂ : List Requirement) (r : Requirement)
    (h₁ : ∀ x ∈ l₁, ∃ s, db.findMaterialStock x.material_id = some s
        ∧ ¬ s.actual_balance < x.quantity)
    (hr : db.findMaterialStock r.material_id = none) :
    BatchCrud.check_formula_stock db (l₁ ++ r :: l₂)
      = Outcome.raised (PyErr.attributeError "NoneType object has no attribute material_id")
    ∧ ∀ (p : Nat) (q : ℚ),
        (FormulaCrud.get_formula db p).map
            (fun e => { material_id := e.material_id, quantity := e.quantity * q })
          = l₁ ++ r :: l₂ →
        BatchCrud.create_batch db p q
          = (db, Outcome.raised
              (PyErr.attributeError "NoneType object has no attribute material_id")) := by
  have hcfs := check_formula_stock_absent db l₁ l₂ r h₁ hr
  refine ⟨hcfs, ?_⟩
  intro p q hreq
  have hform : ¬ (db.formulas.filter (fun rr => rr.product_id == p)).isEmpty = true := by
    intro hemp
    rw [FormulaCrud.get_formula] at hreq
    rw [List.isEmpty_iff] at hemp
    rw [hemp] at hreq
    simp at hreq
  have h1 : BatchCrud.check_material_stock db p q = Outcome.returned (l₁ ++ r :: l₂) := by
    rw [BatchCrud.check_material_stock]
    rw [if_neg hform]
    rw [FormulaCrud.get_formula] at hreq
    rw [hreq]
  rw [BatchCrud.create_batch]
  simp only []
  rw [h1]
  simp only []
  rw [hcfs]

/-- Witness for the amended C7 at `dbC7`. -/
theorem check_formula_stock_absent_raises_witness :
    BatchCrud.check_formula_stock dbC7 ([] ++ { material_id := 7, quantity := 5 } :: [])
      = Outcome.raised (PyErr.attributeError "NoneType object has no attribute material_id")
    ∧ BatchCrud.create_batch dbC7 1 5
        = (dbC7, Outcome.raised
            (PyErr.attributeError "NoneType object has no attribute material_id")) := by
  have h := check_formula_stock_absent_raises dbC7 [] []
    { material_id := 7, quantity := 5 } (by simp) (by decide)
  exact ⟨h.1, h.2 1 5 (by with_unfolding_all decide)⟩

/-- Claim C9: `update_material_stock` is a no-op on the stored record.  It
builds the update dictionary — whose `actual_balance` key does carry the new
balance — but never assigns any field of the loaded row, so the state is
returned unchanged and the returned record is the stored one, all fields
included. -/
theorem update_material_stock_noop
    (db : DB) (material : MaterialStockUpdate) (material_id : Nat) (actual_balance : ℚ)
    (r : MaterialStockRec)
    (h : db.materialStock.find? (fun s => s.id == material_id) = some r) :
    (MaterialStockCrud.mkUpdateData material actual_balance).actual_balance = actual_balance
    ∧ MaterialStockCrud.update_material_stock db material material_id actual_balance
        = (db, Outcome.returned r) := by
  refine ⟨rfl, ?_⟩
  rw [MaterialStockCrud.update_material_stock, h]

/-- A material-stock table with one row, primary key 3, balance 42. -/
def dbC9 : DB :=
  { formulas := [], materialStock := [{ id := 3, material_id := 1, actual_balance := 42 }],
    batchStock := [], productStock := [], products := [],
    batches := [], productBatches := [], packageCompose := [], packagingStock := [] }

/-- Witness for C9 at `dbC9`: updating the balance to 7 changes nothing and
returns the stored row with balance 42. -/
theorem update_material_stock_noop_witness :
    (MaterialStockCrud.mkUpdateData { material_id := none, actual_balance := 7 } 7).actual_balance = 7
    ∧ MaterialStockCrud.update_material_stock dbC9
        { material_id := none, actual_balance := 7 } 3 7
        = (dbC9, Outcome.returned { id := 3, material_id := 1, actual_balance := 42 }) :=
  update_material_stock_noop dbC9 { material_id := none, actual_balance := 7 } 3 7
    { id := 3, material_id := 1, actual_balance := 42 } (by with_unfolding_all decide)

/-- Claim C10: `ProductStockCrud.create_product_stock` can never succeed: the
class defines no `verify_enough_batch` attribute, so the call on `self`
raises `AttributeError` before any row is added or committed, for every
state and every input. -/
theorem create_product_stock_always_raises :
    ("verify_enough_batch" ∉ ProductStockCrud.methodNames)
    ∧ ∀ (db : DB) (product : FormProductStockCreate),
        ProductStockCrud.create_product_stock db product
          = (db, Outcome.raised (PyErr.attributeError
              "ProductStockCrud object has no attribute verify_enough_batch")) := by
  have hc : ProductStockCrud.methodNames.contains "verify_enough_batch" = false := by decide
  refine ⟨by decide, ?_⟩
  intro db product
  rw [ProductStockCrud.create_product_stock]
  rw [hc]
  rfl
